import Mathlib

/-!
Formal model of the checkers rules engine in
`src/app/services/game.service.ts`.

The TypeScript service stores the board as an 8x8 array of strings: the
empty string, a player tag, or a player tag followed by a king suffix.
Here a cell is a sum type carrying the owner and a king flag; the
string prefix test `startsWith(color)` is embedded as `Cell.startsWith`
and the substring test `includes('king')` as `Cell.isKing`.
Coordinates are natural numbers and the board is a total function on
coordinates whose meaningful domain is the 8x8 grid; out-of-bounds
reads, which are undefined behaviour in the source, are modelled as
empty cells.  The one runtime fault the source can produce, the
unchecked dereference of a null `selectedPiece` inside `isValidMove`
(and hence inside `movePiece`), is modelled by the value `none` of the
`Option`-typed results of `isValidMove` and `movePiece`.
-/

namespace Checkers

/-- The two players, the string tags `red` and `black` of the source. -/
inductive Player : Type
  | red : Player
  | black : Player
  deriving DecidableEq

/-- One board cell: empty, or a piece with an owner and a king flag.
The source encodes these as the strings `''`, `'red'`, `'black'`,
`'red-king'` and `'black-king'`. -/
inductive Cell : Type
  | empty : Cell
  | piece : Player → Bool → Cell
  deriving DecidableEq

/-- Embeds the source's prefix test `cell.startsWith(color)` on the
string encoding of cells: false on the empty cell, ownership test on a
piece. -/
def Cell.startsWith : Cell → Player → Bool
  | Cell.empty, _ => false
  | Cell.piece o _, p => decide (o = p)

/-- Embeds the source's substring test `piece.includes('king')`. -/
def Cell.isKing : Cell → Bool
  | Cell.empty => false
  | Cell.piece _ k => k

/-- The board, a total function on coordinates; the game uses the 8x8
grid of cells with both coordinates below 8. -/
abbrev Board : Type := Nat → Nat → Cell

/-- Writing one cell of the board, `this.board[r][c] = v`. -/
def updateCell (b : Board) (r c : Nat) (v : Cell) : Board :=
  fun r2 c2 => if r2 = r ∧ c2 = c then v else b r2 c2

/-- The state owned by the `GameService`: board, current player,
optional selection and the game-over flag. -/
structure GameState : Type where
  board : Board
  currentPlayer : Player
  selectedPiece : Option (Nat × Nat)
  gameOver : Bool

/-- The starting board built by `initializeBoard`: black men on the
odd-parity squares of the first three rows, red men on the odd-parity
squares of the last three rows, everything else empty.  The source
builds exactly an 8x8 array, so outside the grid the model yields the
empty cell. -/
def initialBoard : Board := fun row col =>
  if row < 8 ∧ col < 8 then
    if row < 3 ∧ (row + col) % 2 = 1 then Cell.piece Player.black false
    else if 4 < row ∧ (row + col) % 2 = 1 then Cell.piece Player.red false
    else Cell.empty
  else Cell.empty

/-- `initializeBoard()`: rebuilds the starting board, sets the current
player to red, clears the selection and the game-over flag; the
previous state is ignored entirely. -/
def initializeBoard (_s : GameState) : GameState :=
  { board := initialBoard, currentPlayer := Player.red,
    selectedPiece := none, gameOver := false }

/-- `selectPiece(row, col)`: records the selection when the cell holds
a piece of the current player; returns the success flag together with
the (possibly unchanged) state. -/
def selectPiece (s : GameState) (row col : Nat) : Bool × GameState :=
  if (s.board row col).startsWith s.currentPlayer then
    (true, { s with selectedPiece := some (row, col) })
  else
    (false, s)

/-- `switchPlayer()`: red becomes black and vice versa. -/
def switchPlayer (p : Player) : Player :=
  if p = Player.red then Player.black else Player.red

/-- `countPieces(color)`: the source flattens the 8x8 array and counts
the cells whose tag starts with the given color. -/
def countPieces (b : Board) (p : Player) : Nat :=
  (((List.range 8).flatMap fun r => (List.range 8).map fun c => b r c).filter
    fun cell => cell.startsWith p).length

/-- `checkGameOver()`: sets the game-over flag when either player has
no pieces left (the source additionally logs the winner, which has no
state effect). -/
def checkGameOver (s : GameState) : GameState :=
  if countPieces s.board Player.red = 0 then { s with gameOver := true }
  else if countPieces s.board Player.black = 0 then { s with gameOver := true }
  else s

/-- The body of the source's `isValidMove`, with the selected
coordinates passed explicitly (the source reads them from the non-null
selection): the target must be empty, then either a one-step diagonal
move that is forward for the current player unless the piece is a
king, or a two-step diagonal jump over an opposing piece. -/
def isValidMoveAux (s : GameState) (row col targetRow targetCol : Nat) : Bool :=
  if s.board targetRow targetCol ≠ Cell.empty then false
  else if ((targetCol : Int) - (col : Int)).natAbs = 1 ∧
      ((targetRow : Int) - (row : Int)).natAbs = 1 then
    (s.board row col).isKing ||
      ((decide (s.currentPlayer = Player.red) &&
          decide ((targetRow : Int) - (row : Int) = -1)) ||
        (decide (s.currentPlayer = Player.black) &&
          decide ((targetRow : Int) - (row : Int) = 1)))
  else if ((targetCol : Int) - (col : Int)).natAbs = 2 ∧
      ((targetRow : Int) - (row : Int)).natAbs = 2 then
    decide (s.board ((row + targetRow) / 2) ((col + targetCol) / 2) ≠ Cell.empty) &&
      ! (s.board ((row + targetRow) / 2) ((col + targetCol) / 2)).startsWith
          s.currentPlayer
  else false

/-- `isValidMove(targetRow, targetCol)`: `none` models the TypeError
thrown by dereferencing a null selection, otherwise the verdict of
`isValidMoveAux` at the selected coordinates. -/
def isValidMove (s : GameState) (targetRow targetCol : Nat) : Option Bool :=
  match s.selectedPiece with
  | none => none
  | some rc => some (isValidMoveAux s rc.1 rc.2 targetRow targetCol)

/-- The board after the piece at the source cell is written to the
target cell and the source cell is cleared (the source reads the piece
before mutating). -/
def moveBoard (b : Board) (row col targetRow targetCol : Nat) : Board :=
  updateCell (updateCell b targetRow targetCol (b row col)) row col Cell.empty

/-- The capture step of `movePiece`: when the row distance is two, the
arithmetic-midpoint cell is cleared. -/
def captureBoard (b : Board) (row col targetRow targetCol : Nat) : Board :=
  if ((targetRow : Int) - (row : Int)).natAbs = 2 then
    updateCell b ((row + targetRow) / 2) ((col + targetCol) / 2) Cell.empty
  else b

/-- The promotion step of `movePiece`: when the current player is red
and the target row is 0, or black and the target row is 7, the target
cell is overwritten with a king of the current player. -/
def promoteBoard (s : GameState) (b : Board) (targetRow targetCol : Nat) : Board :=
  if (s.currentPlayer = Player.red ∧ targetRow = 0) ∨
      (s.currentPlayer = Player.black ∧ targetRow = 7) then
    updateCell b targetRow targetCol (Cell.piece s.currentPlayer true)
  else b

/-- The mutation performed by a validated `movePiece`: move the piece,
clear a jumped cell, promote on the far row, clear the selection,
switch the player, and run the terminal check, in the source's order. -/
def applyMove (s : GameState) (row col targetRow targetCol : Nat) : GameState :=
  checkGameOver
    { board := promoteBoard s
        (captureBoard (moveBoard s.board row col targetRow targetCol)
          row col targetRow targetCol) targetRow targetCol,
      currentPlayer := switchPlayer s.currentPlayer,
      selectedPiece := none,
      gameOver := s.gameOver }

/-- `movePiece(targetRow, targetCol)`: `none` models the TypeError on
a null selection; otherwise the success flag together with the new
state: the full mutation on a valid move, or only the cleared
selection on an invalid one. -/
def movePiece (s : GameState) (targetRow targetCol : Nat) : Option (Bool × GameState) :=
  match s.selectedPiece with
  | none => none
  | some rc =>
    if isValidMoveAux s rc.1 rc.2 targetRow targetCol then
      some (true, applyMove s rc.1 rc.2 targetRow targetCol)
    else
      some (false, { s with selectedPiece := none })

/-! Concrete states used by the witnesses and counterexamples. -/

/-- An arbitrary state, standing for the pre-construction value. -/
def blankState : GameState :=
  { board := fun _ _ => Cell.empty, currentPlayer := Player.red,
    selectedPiece := none, gameOver := false }

/-- The freshly initialized state of the service constructor. -/
def initState : GameState := initializeBoard blankState

/-- The fresh state after selecting the red man at (5, 0). -/
def selState : GameState := (selectPiece initState 5 0).2

/-- Extracts the state from a `movePiece` result, with a default for
the error case. -/
def resultState (m : Option (Bool × GameState)) (d : GameState) : GameState :=
  match m with
  | some q => q.2
  | none => d

/-- The state after the fresh-board move of the red man from (5, 0)
to (4, 1). -/
def movedState : GameState := resultState (movePiece selState 4 1) initState

/-- `selState` with the game-over flag forced on. -/
def overState : GameState := { selState with gameOver := true }

/-- The state after the move from (5, 0) to (4, 1) out of `overState`. -/
def overMoved : GameState := resultState (movePiece overState 4 1) overState

/-- A contrived position: a red man on (4, 1), a black man on (3, 2),
red to move with (4, 1) selected. -/
def jumpState : GameState :=
  { board := updateCell
      (updateCell (fun _ _ => Cell.empty) 4 1 (Cell.piece Player.red false))
      3 2 (Cell.piece Player.black false),
    currentPlayer := Player.red, selectedPiece := some (4, 1), gameOver := false }

/-- The state after the jump from (4, 1) over (3, 2) to (2, 3). -/
def jumpMoved : GameState := resultState (movePiece jumpState 2 3) jumpState

/-- A contrived position: a red man on (2, 1), a black man on (1, 2),
red to move with (2, 1) selected; the jump to (0, 3) lands on red's
promotion row. -/
def jumpPromoState : GameState :=
  { board := updateCell
      (updateCell (fun _ _ => Cell.empty) 2 1 (Cell.piece Player.red false))
      1 2 (Cell.piece Player.black false),
    currentPlayer := Player.red, selectedPiece := some (2, 1), gameOver := false }

/-! Basic lemmas about the state operations. -/

theorem updateCell_same (b : Board) (r c : Nat) (v : Cell) :
    updateCell b r c v r c = v := by
  simp [updateCell]

theorem updateCell_other (b : Board) (r c : Nat) (v : Cell) (r2 c2 : Nat)
    (h : r2 ≠ r ∨ c2 ≠ c) : updateCell b r c v r2 c2 = b r2 c2 := by
  rcases h with h | h <;> simp [updateCell, h]

theorem checkGameOver_board (s : GameState) : (checkGameOver s).board = s.board := by
  unfold checkGameOver
  by_cases hr : countPieces s.board Player.red = 0
  · rw [if_pos hr]
  · rw [if_neg hr]
    by_cases hb : countPieces s.board Player.black = 0
    · rw [if_pos hb]
    · rw [if_neg hb]

theorem checkGameOver_selectedPiece (s : GameState) :
    (checkGameOver s).selectedPiece = s.selectedPiece := by
  unfold checkGameOver
  by_cases hr : countPieces s.board Player.red = 0
  · rw [if_pos hr]
  · rw [if_neg hr]
    by_cases hb : countPieces s.board Player.black = 0
    · rw [if_pos hb]
    · rw [if_neg hb]

theorem checkGameOver_currentPlayer (s : GameState) :
    (checkGameOver s).currentPlayer = s.currentPlayer := by
  unfold checkGameOver
  by_cases hr : countPieces s.board Player.red = 0
  · rw [if_pos hr]
  · rw [if_neg hr]
    by_cases hb : countPieces s.board Player.black = 0
    · rw [if_pos hb]
    · rw [if_neg hb]

theorem checkGameOver_gameOver (s : GameState) :
    ((checkGameOver s).gameOver = true ↔
      (s.gameOver = true ∨ countPieces s.board Player.red = 0 ∨
        countPieces s.board Player.black = 0)) := by
  unfold checkGameOver
  by_cases hr : countPieces s.board Player.red = 0
  · rw [if_pos hr]; simp [hr]
  · rw [if_neg hr]
    by_cases hb : countPieces s.board Player.black = 0
    · rw [if_pos hb]; simp [hb]
    · rw [if_neg hb]; simp [hr, hb]

theorem movePiece_some (s : GameState) (tr tc r c : Nat)
    (hsel : s.selectedPiece = some (r, c)) :
    movePiece s tr tc =
      (if isValidMoveAux s r c tr tc then some (true, applyMove s r c tr tc)
       else some (false, { s with selectedPiece := none })) := by
  simp [movePiece, hsel]

theorem movePiece_fst (s : GameState) (tr tc r c : Nat)
    (hsel : s.selectedPiece = some (r, c)) :
    (movePiece s tr tc).map Prod.fst = some (isValidMoveAux s r c tr tc) := by
  rw [movePiece_some s tr tc r c hsel]
  cases hv : isValidMoveAux s r c tr tc
  · rw [if_neg (by simp [hv])]; rfl
  · rw [if_pos (by simp [hv])]; rfl

theorem movePiece_success (s s2 : GameState) (tr tc r c : Nat)
    (hsel : s.selectedPiece = some (r, c)) (h : movePiece s tr tc = some (true, s2)) :
    isValidMoveAux s r c tr tc = true ∧ s2 = applyMove s r c tr tc := by
  rw [movePiece_some s tr tc r c hsel] at h
  by_cases hv : isValidMoveAux s r c tr tc = true
  · rw [if_pos hv] at h
    refine ⟨hv, ?_⟩
    cases h
    rfl
  · rw [if_neg hv] at h
    simp at h

theorem movePiece_success_any (s s2 : GameState) (tr tc : Nat)
    (h : movePiece s tr tc = some (true, s2)) :
    ∃ r c, s.selectedPiece = some (r, c) ∧ isValidMoveAux s r c tr tc = true ∧
      s2 = applyMove s r c tr tc := by
  cases hsel : s.selectedPiece with
  | none => simp [movePiece, hsel] at h
  | some rc =>
    obtain ⟨r, c⟩ := rc
    obtain ⟨hv, he⟩ := movePiece_success s s2 tr tc r c hsel h
    exact ⟨r, c, rfl, hv, he⟩

theorem isValidMoveAux_shape (s : GameState) (row col tr tc : Nat)
    (h : isValidMoveAux s row col tr tc = true) :
    (((tc : Int) - (col : Int)).natAbs = 1 ∧ ((tr : Int) - (row : Int)).natAbs = 1) ∨
      (((tc : Int) - (col : Int)).natAbs = 2 ∧ ((tr : Int) - (row : Int)).natAbs = 2) := by
  unfold isValidMoveAux at h
  by_cases h0 : s.board tr tc ≠ Cell.empty
  · rw [if_pos h0] at h; simp at h
  · rw [if_neg h0] at h
    by_cases h1 : ((tc : Int) - (col : Int)).natAbs = 1 ∧
        ((tr : Int) - (row : Int)).natAbs = 1
    · exact Or.inl h1
    · rw [if_neg h1] at h
      by_cases h2 : ((tc : Int) - (col : Int)).natAbs = 2 ∧
          ((tr : Int) - (row : Int)).natAbs = 2
      · exact Or.inr h2
      · rw [if_neg h2] at h; simp at h

theorem applyMove_target (s : GameState) (r c tr tc : Nat) (p : Player) (king : Bool)
    (hpiece : s.board r c = Cell.piece p king) (hcur : s.currentPlayer = p)
    (hdy : ((tr : Int) - (r : Int)).natAbs = 1 ∨ ((tr : Int) - (r : Int)).natAbs = 2) :
    (applyMove s r c tr tc).board tr tc =
      (if (p = Player.red ∧ tr = 0) ∨ (p = Player.black ∧ tr = 7)
       then Cell.piece p true else Cell.piece p king) := by
  have hne : tr ≠ r := by
    rcases hdy with h | h <;> rcases Int.natAbs_eq_iff.mp h with h2 | h2 <;> omega
  unfold applyMove
  rw [checkGameOver_board]
  show promoteBoard s _ tr tc tr tc = _
  unfold promoteBoard
  rw [hcur]
  by_cases hp : (p = Player.red ∧ tr = 0) ∨ (p = Player.black ∧ tr = 7)
  · rw [if_pos hp, if_pos hp, updateCell_same]
  · rw [if_neg hp, if_neg hp]
    unfold captureBoard
    by_cases h2 : ((tr : Int) - (r : Int)).natAbs = 2
    · rw [if_pos h2]
      have hjr : (r + tr) / 2 ≠ tr := by
        rcases Int.natAbs_eq_iff.mp h2 with h3 | h3 <;> omega
      rw [updateCell_other _ _ _ _ _ _ (Or.inl hjr.symm)]
      unfold moveBoard
      rw [updateCell_other _ _ _ _ _ _ (Or.inl hne), updateCell_same, hpiece]
    · rw [if_neg h2]
      unfold moveBoard
      rw [updateCell_other _ _ _ _ _ _ (Or.inl hne), updateCell_same, hpiece]

theorem applyMove_source (s : GameState) (r c tr tc : Nat)
    (hdy : ((tr : Int) - (r : Int)).natAbs = 1 ∨ ((tr : Int) - (r : Int)).natAbs = 2) :
    (applyMove s r c tr tc).board r c = Cell.empty := by
  have hne : r ≠ tr := by
    rcases hdy with h | h <;> rcases Int.natAbs_eq_iff.mp h with h2 | h2 <;> omega
  unfold applyMove
  rw [checkGameOver_board]
  show promoteBoard s _ tr tc r c = _
  have hmain : captureBoard (moveBoard s.board r c tr tc) r c tr tc r c = Cell.empty := by
    unfold captureBoard
    by_cases h2 : ((tr : Int) - (r : Int)).natAbs = 2
    · rw [if_pos h2]
      have hjr : r ≠ (r + tr) / 2 := by
        rcases Int.natAbs_eq_iff.mp h2 with h3 | h3 <;> omega
      rw [updateCell_other _ _ _ _ _ _ (Or.inl hjr)]
      unfold moveBoard
      rw [updateCell_same]
    · rw [if_neg h2]
      unfold moveBoard
      rw [updateCell_same]
  unfold promoteBoard
  by_cases hp : (s.currentPlayer = Player.red ∧ tr = 0) ∨
      (s.currentPlayer = Player.black ∧ tr = 7)
  · rw [if_pos hp, updateCell_other _ _ _ _ _ _ (Or.inl hne)]
    exact hmain
  · rw [if_neg hp]
    exact hmain

theorem applyMove_mid (s : GameState) (r c tr tc : Nat)
    (hdy : ((tr : Int) - (r : Int)).natAbs = 2) :
    (applyMove s r c tr tc).board ((r + tr) / 2) ((c + tc) / 2) = Cell.empty := by
  have hjr : (r + tr) / 2 ≠ tr := by
    rcases Int.natAbs_eq_iff.mp hdy with h3 | h3 <;> omega
  unfold applyMove
  rw [checkGameOver_board]
  show promoteBoard s _ tr tc ((r + tr) / 2) ((c + tc) / 2) = _
  have hmain : captureBoard (moveBoard s.board r c tr tc) r c tr tc
      ((r + tr) / 2) ((c + tc) / 2) = Cell.empty := by
    unfold captureBoard
    rw [if_pos hdy, updateCell_same]
  unfold promoteBoard
  by_cases hp : (s.currentPlayer = Player.red ∧ tr = 0) ∨
      (s.currentPlayer = Player.black ∧ tr = 7)
  · rw [if_pos hp, updateCell_other _ _ _ _ _ _ (Or.inl hjr)]
    exact hmain
  · rw [if_neg hp]
    exact hmain

/-! The claims. -/

/-- Claim C1: after `initializeBoard()`, called on any state, the board
holds exactly 12 pieces per player, all of rank man, black men on the
odd-parity squares of the first three rows and red men on the
odd-parity squares of the last three rows, with every other in-bounds
cell empty; the current player is red, the game-over flag is cleared
and the selection is cleared. -/
theorem C1_initialize (s : GameState) (row col : Nat) (hr : row < 8) (hc : col < 8) :
    countPieces (initializeBoard s).board Player.red = 12 ∧
    countPieces (initializeBoard s).board Player.black = 12 ∧
    (initializeBoard s).board row col =
      (if row < 3 ∧ (row + col) % 2 = 1 then Cell.piece Player.black false
       else if 4 < row ∧ (row + col) % 2 = 1 then Cell.piece Player.red false
       else Cell.empty) ∧
    (initializeBoard s).currentPlayer = Player.red ∧
    (initializeBoard s).gameOver = false ∧
    (initializeBoard s).selectedPiece = none := by
  refine ⟨?_, ?_, ?_, rfl, rfl, rfl⟩
  · show countPieces initialBoard Player.red = 12
    decide
  · show countPieces initialBoard Player.black = 12
    decide
  · show initialBoard row col = _
    rw [initialBoard, if_pos ⟨hr, hc⟩]

/-- Witness for C1 at the blank state and the cell (2, 1). -/
theorem C1_initialize_witness :
    countPieces (initializeBoard blankState).board Player.red = 12 ∧
    countPieces (initializeBoard blankState).board Player.black = 12 ∧
    (initializeBoard blankState).board 2 1 =
      (if 2 < 3 ∧ (2 + 1) % 2 = 1 then Cell.piece Player.black false
       else if 4 < 2 ∧ (2 + 1) % 2 = 1 then Cell.piece Player.red false
       else Cell.empty) ∧
    (initializeBoard blankState).currentPlayer = Player.red ∧
    (initializeBoard blankState).gameOver = false ∧
    (initializeBoard blankState).selectedPiece = none :=
  C1_initialize blankState 2 1 (by decide) (by decide)

/-- Claim C2: a `movePiece` call whose validation fails (with a
selection present, so that `isValidMove` reports `some false`) returns
false and clears the selection, while the board, the current player
and the game-over flag are left unchanged. -/
theorem C2_invalidMove (s : GameState) (tr tc : Nat)
    (hfail : isValidMove s tr tc = some false) :
    movePiece s tr tc =
      some (false,
        { board := s.board, currentPlayer := s.currentPlayer,
          selectedPiece := none, gameOver := s.gameOver }) := by
  cases hsel : s.selectedPiece with
  | none => simp [isValidMove, hsel] at hfail
  | some rc =>
    simp [isValidMove, hsel] at hfail
    simp [movePiece, hsel, hfail]

/-- Witness for C2: on the fresh board with the red man at (5, 0)
selected, the non-diagonal move to (3, 0) fails and only the selection
changes. -/
theorem C2_invalidMove_witness :
    isValidMove selState 3 0 = some false ∧
    movePiece selState 3 0 =
      some (false,
        { board := selState.board, currentPlayer := selState.currentPlayer,
          selectedPiece := none, gameOver := selState.gameOver }) :=
  ⟨by decide, C2_invalidMove selState 3 0 (by decide)⟩

/-- Claim C7: for in-bounds coordinates, `selectPiece` succeeds and
records the coordinates exactly when the cell holds a piece of the
current player; on failure the selection is unchanged; the board and
the current player are never mutated. -/
theorem C7_select (s : GameState) (row col : Nat) (hr : row < 8) (hc : col < 8) :
    (((selectPiece s row col).1 = true ∧
        (selectPiece s row col).2.selectedPiece = some (row, col)) ↔
      (∃ k, s.board row col = Cell.piece s.currentPlayer k)) ∧
    ((selectPiece s row col).1 = false →
      (selectPiece s row col).2.selectedPiece = s.selectedPiece) ∧
    (selectPiece s row col).2.board = s.board ∧
    (selectPiece s row col).2.currentPlayer = s.currentPlayer := by
  clear hr hc
  unfold selectPiece
  rcases hcell : s.board row col with _ | ⟨q, kk⟩
  · simp [Cell.startsWith]
  · by_cases hq : q = s.currentPlayer
    · subst hq
      simp [Cell.startsWith]
    · simp [Cell.startsWith, hq]

/-- Witness for C7 at the fresh board and the red man's cell (5, 0). -/
theorem C7_select_witness :
    (((selectPiece initState 5 0).1 = true ∧
        (selectPiece initState 5 0).2.selectedPiece = some (5, 0)) ↔
      (∃ k, initState.board 5 0 = Cell.piece initState.currentPlayer k)) ∧
    ((selectPiece initState 5 0).1 = false →
      (selectPiece initState 5 0).2.selectedPiece = initState.selectedPiece) ∧
    (selectPiece initState 5 0).2.board = initState.board ∧
    (selectPiece initState 5 0).2.currentPlayer = initState.currentPlayer :=
  C7_select initState 5 0 (by decide) (by decide)

/-- Claim C8: the claim asks that `movePiece` with no selection return
false without touching any state; the source instead dereferences the
null selection inside `isValidMove` and throws a TypeError, modelled
here by the `none` result: on the fresh board, which has no selection,
`movePiece(3, 2)` produces the error value, not a `false` result. -/
theorem C8_nullSelection :
    initState.selectedPiece = none ∧ movePiece initState 3 2 = none :=
  ⟨rfl, rfl⟩

/-- Claim C3: for a one-step diagonal move onto an empty cell by the
selected piece of the current player, `movePiece` succeeds exactly
when the piece is a king or the step is forward for its owner (row
decreasing for red, row increasing for black); in particular a man's
backward one-step attempt always fails and a king may step either
way. -/
theorem C3_oneStep (s : GameState) (r c tr tc : Nat) (p : Player) (king : Bool)
    (hsel : s.selectedPiece = some (r, c))
    (hpiece : s.board r c = Cell.piece p king)
    (hcur : s.currentPlayer = p)
    (hempty : s.board tr tc = Cell.empty)
    (hdx : ((tc : Int) - (c : Int)).natAbs = 1)
    (hdy : ((tr : Int) - (r : Int)).natAbs = 1) :
    ((movePiece s tr tc).map Prod.fst = some true ↔
      (king = true ∨ (p = Player.red ∧ (tr : Int) = (r : Int) - 1) ∨
        (p = Player.black ∧ (tr : Int) = (r : Int) + 1))) := by
  rw [movePiece_fst s tr tc r c hsel]
  have haux : isValidMoveAux s r c tr tc =
      (king ||
        ((decide (p = Player.red) && decide ((tr : Int) - (r : Int) = -1)) ||
          (decide (p = Player.black) && decide ((tr : Int) - (r : Int) = 1)))) := by
    unfold isValidMoveAux
    rw [if_neg (by simp [hempty]), if_pos ⟨hdx, hdy⟩, hpiece, hcur]
    rfl
  rw [haux]
  have hd : (tr : Int) - (r : Int) = 1 ∨ (tr : Int) - (r : Int) = -1 := by
    rcases Int.natAbs_eq_iff.mp hdy with h | h
    · exact Or.inl h
    · exact Or.inr h
  cases p <;> cases king <;> rcases hd with hd | hd <;> simp [hd] <;> omega

/-- Witness for C3: on the fresh board with the red man at (5, 0)
selected, the forward step to (4, 1) succeeds exactly as the
direction rule dictates. -/
theorem C3_oneStep_witness :
    ((movePiece selState 4 1).map Prod.fst = some true ↔
      (false = true ∨
        (Player.red = Player.red ∧ (((4 : Nat) : Int) = ((5 : Nat) : Int) - 1)) ∨
        (Player.red = Player.black ∧ (((4 : Nat) : Int) = ((5 : Nat) : Int) + 1)))) :=
  C3_oneStep selState 5 0 4 1 Player.red false rfl rfl rfl rfl (by decide) (by decide)

/-- Claim C4 (amended): for a two-step diagonal move onto an empty
target by the selected piece of the current player, `movePiece`
succeeds exactly when the arithmetic-midpoint cell holds an opposing
piece, with no direction requirement; on success the midpoint and the
source become empty and the target holds the moved piece, except that
a jump landing on the mover's promotion row leaves the piece there
with rank king, per the promotion rule. -/
theorem C4_jump (s s2 : GameState) (r c tr tc : Nat) (p : Player) (king : Bool)
    (hsel : s.selectedPiece = some (r, c))
    (hpiece : s.board r c = Cell.piece p king)
    (hcur : s.currentPlayer = p)
    (hempty : s.board tr tc = Cell.empty)
    (hdx : ((tc : Int) - (c : Int)).natAbs = 2)
    (hdy : ((tr : Int) - (r : Int)).natAbs = 2) :
    ((movePiece s tr tc).map Prod.fst = some true ↔
      (∃ k, s.board ((r + tr) / 2) ((c + tc) / 2) =
        Cell.piece (switchPlayer p) k)) ∧
    (movePiece s tr tc = some (true, s2) →
      s2.board ((r + tr) / 2) ((c + tc) / 2) = Cell.empty ∧
      s2.board r c = Cell.empty ∧
      s2.board tr tc =
        (if (p = Player.red ∧ tr = 0) ∨ (p = Player.black ∧ tr = 7)
         then Cell.piece p true else Cell.piece p king)) := by
  constructor
  · rw [movePiece_fst s tr tc r c hsel]
    have haux : isValidMoveAux s r c tr tc =
        (decide (s.board ((r + tr) / 2) ((c + tc) / 2) ≠ Cell.empty) &&
          ! (s.board ((r + tr) / 2) ((c + tc) / 2)).startsWith p) := by
      unfold isValidMoveAux
      rw [if_neg (by simp [hempty]), if_neg (by simp [hdx]), if_pos ⟨hdx, hdy⟩, hcur]
    rw [haux]
    rcases hmid : s.board ((r + tr) / 2) ((c + tc) / 2) with _ | ⟨q, kk⟩
    · simp [Cell.startsWith]
    · cases p <;> cases q <;> simp [Cell.startsWith, switchPlayer]
  · intro hmove
    obtain ⟨hv, hs2⟩ := movePiece_success s s2 tr tc r c hsel hmove
    rw [hs2]
    exact ⟨applyMove_mid s r c tr tc hdy,
      applyMove_source s r c tr tc (Or.inr hdy),
      applyMove_target s r c tr tc p king hpiece hcur (Or.inr hdy)⟩

/-- Witness for C4: in the contrived position the red man at (4, 1)
jumps the black man at (3, 2) to (2, 3); the success criterion and the
post-move cells are as stated. -/
theorem C4_jump_witness :
    ((movePiece jumpState 2 3).map Prod.fst = some true ↔
      (∃ k, jumpState.board ((4 + 2) / 2) ((1 + 3) / 2) =
        Cell.piece (switchPlayer Player.red) k)) ∧
    (jumpMoved.board ((4 + 2) / 2) ((1 + 3) / 2) = Cell.empty ∧
      jumpMoved.board 4 1 = Cell.empty ∧
      jumpMoved.board 2 3 =
        (if (Player.red = Player.red ∧ 2 = 0) ∨ (Player.red = Player.black ∧ 2 = 7)
         then Cell.piece Player.red true else Cell.piece Player.red false)) :=
  ⟨(C4_jump jumpState jumpMoved 4 1 2 3 Player.red false rfl rfl rfl rfl
      (by decide) (by decide)).1,
   (C4_jump jumpState jumpMoved 4 1 2 3 Player.red false rfl rfl rfl rfl
      (by decide) (by decide)).2 rfl⟩

/-- Counterexample to claim C4 as stated: in the contrived position the
red man at (2, 1) jumps the black man at (1, 2) and lands on (0, 3),
red's promotion row; the jump succeeds but the target cell ends up
holding a red king, which is not the moved piece (a red man). -/
theorem C4_counterexample :
    jumpPromoState.selectedPiece = some (2, 1) ∧
    jumpPromoState.board 0 3 = Cell.empty ∧
    jumpPromoState.board 1 2 = Cell.piece Player.black false ∧
    jumpPromoState.board 2 1 = Cell.piece Player.red false ∧
    (movePiece jumpPromoState 0 3).map Prod.fst = some true ∧
    (movePiece jumpPromoState 0 3).map (fun q => q.2.board 0 3) =
      some (Cell.piece Player.red true) ∧
    Cell.piece Player.red true ≠ Cell.piece Player.red false := by
  decide

/-- Claim C5: a successful `movePiece` of the current player's piece
promotes it to king exactly when it lands on the farthest row from its
owner's start (row 0 for red, row 7 for black), idempotently for a
piece that is already a king, and leaves the rank unchanged on every
other successful move. -/
theorem C5_promotion (s s2 : GameState) (r c tr tc : Nat) (p : Player) (king : Bool)
    (hsel : s.selectedPiece = some (r, c))
    (hpiece : s.board r c = Cell.piece p king)
    (hcur : s.currentPlayer = p)
    (hmove : movePiece s tr tc = some (true, s2)) :
    s2.board tr tc =
      (if (p = Player.red ∧ tr = 0) ∨ (p = Player.black ∧ tr = 7)
       then Cell.piece p true else Cell.piece p king) := by
  obtain ⟨hv, hs2⟩ := movePiece_success s s2 tr tc r c hsel hmove
  rw [hs2]
  exact applyMove_target s r c tr tc p king hpiece hcur
    ((isValidMoveAux_shape s r c tr tc hv).imp And.right And.right)

/-- Witness for C5: the fresh-board move of the red man from (5, 0) to
(4, 1) does not reach row 0, so the piece stays a man. -/
theorem C5_promotion_witness :
    movedState.board 4 1 =
      (if (Player.red = Player.red ∧ 4 = 0) ∨ (Player.red = Player.black ∧ 4 = 7)
       then Cell.piece Player.red true else Cell.piece Player.red false) :=
  C5_promotion selState movedState 5 0 4 1 Player.red false rfl rfl rfl rfl

/-- Claim C6: after the board mutation of a successful `movePiece` the
game-over flag is set exactly when either player's piece count on the
resulting board is zero or the flag was already set; `selectPiece`
never changes the flag, no `movePiece` result ever clears a set flag,
and `initializeBoard` resets it to false. -/
theorem C6_terminal (s s2 t : GameState) (b : Bool) (tr tc row col : Nat) :
    (movePiece s tr tc = some (true, s2) →
      (s2.gameOver = true ↔
        (s.gameOver = true ∨ countPieces s2.board Player.red = 0 ∨
          countPieces s2.board Player.black = 0))) ∧
    (selectPiece s row col).2.gameOver = s.gameOver ∧
    (movePiece s tr tc = some (b, t) → s.gameOver = true → t.gameOver = true) ∧
    (initializeBoard s).gameOver = false := by
  refine ⟨?_, ?_, ?_, rfl⟩
  · intro hmove
    obtain ⟨r, c, hsel, hv, hs2⟩ := movePiece_success_any s s2 tr tc hmove
    subst hs2
    unfold applyMove
    rw [checkGameOver_gameOver, checkGameOver_board]
  · unfold selectPiece
    by_cases hsw : (s.board row col).startsWith s.currentPlayer = true
    · rw [if_pos hsw]
    · rw [if_neg hsw]
  · intro hmt hov
    cases hsel : s.selectedPiece with
    | none => simp [movePiece, hsel] at hmt
    | some rc =>
      rw [movePiece_some s tr tc rc.1 rc.2 (by rw [hsel])] at hmt
      by_cases hv : isValidMoveAux s rc.1 rc.2 tr tc = true
      · rw [if_pos hv] at hmt
        cases hmt
        unfold applyMove
        rw [checkGameOver_gameOver]
        exact Or.inl hov
      · rw [if_neg hv] at hmt
        cases hmt
        exact hov

/-- Witness for C6 at a state with the flag forced on: the move from
(5, 0) to (4, 1) succeeds, the flag stays set, selection never touches
it, and reinitialization clears it. -/
theorem C6_terminal_witness :
    movePiece overState 4 1 = some (true, overMoved) ∧
    (overMoved.gameOver = true ↔
      (overState.gameOver = true ∨ countPieces overMoved.board Player.red = 0 ∨
        countPieces overMoved.board Player.black = 0)) ∧
    (selectPiece overState 0 0).2.gameOver = overState.gameOver ∧
    overMoved.gameOver = true ∧
    (initializeBoard overState).gameOver = false := by
  refine ⟨rfl, ?_, ?_, ?_, ?_⟩
  · exact (C6_terminal overState overMoved overMoved true 4 1 0 0).1 rfl
  · exact (C6_terminal overState overMoved overMoved true 4 1 0 0).2.1
  · exact (C6_terminal overState overMoved overMoved true 4 1 0 0).2.2.1 rfl rfl
  · exact (C6_terminal overState overMoved overMoved true 4 1 0 0).2.2.2

/-- The states reachable through the engine's operations: any
reinitialization, any selection attempt, and any completed (non-crashing)
move attempt. -/
inductive Reachable : GameState → Prop
  | init : ∀ s, Reachable (initializeBoard s)
  | select : ∀ s row col, Reachable s → Reachable (selectPiece s row col).2
  | move : ∀ s tr tc b t, Reachable s → movePiece s tr tc = some (b, t) → Reachable t

/-- Claim C10: in every reachable state a non-null selection references
a cell holding a piece of the current player, so the ownership checks
of `isValidMove` against `currentPlayer` agree with the owner of the
selected piece. -/
theorem C10_selectionInvariant (s : GameState) (h : Reachable s) (r c : Nat)
    (p : Player) (k : Bool) (hsel : s.selectedPiece = some (r, c)) :
    (s.board r c).startsWith s.currentPlayer = true ∧
    (s.board r c = Cell.piece p k → p = s.currentPlayer) := by
  have main : ∀ t, Reachable t → ∀ r2 c2, t.selectedPiece = some (r2, c2) →
      (t.board r2 c2).startsWith t.currentPlayer = true := by
    intro t ht
    induction ht with
    | init s0 => intro r2 c2 hs2; simp [initializeBoard] at hs2
    | select s0 row col hs0 ih =>
      intro r2 c2 hs2
      unfold selectPiece at hs2 ⊢
      by_cases hsw : (s0.board row col).startsWith s0.currentPlayer = true
      · rw [if_pos hsw] at hs2 ⊢
        simp only at hs2
        cases hs2
        exact hsw
      · rw [if_neg hsw] at hs2 ⊢
        exact ih r2 c2 hs2
    | move s0 tr tc b t0 hs0 hmv ih =>
      intro r2 c2 hs2
      exfalso
      cases hselp : s0.selectedPiece with
      | none => simp [movePiece, hselp] at hmv
      | some rc =>
        rw [movePiece_some s0 tr tc rc.1 rc.2 (by rw [hselp])] at hmv
        by_cases hv : isValidMoveAux s0 rc.1 rc.2 tr tc = true
        · rw [if_pos hv] at hmv
          cases hmv
          rw [show (applyMove s0 rc.1 rc.2 tr tc).selectedPiece = none from
            checkGameOver_selectedPiece _] at hs2
          cases hs2
        · rw [if_neg hv] at hmv
          cases hmv
          cases hs2
  refine ⟨main s h r c hsel, ?_⟩
  intro hp
  have h1 := main s h r c hsel
  rw [hp] at h1
  simpa [Cell.startsWith] using h1

/-- Witness for C10 at the fresh board after selecting (5, 0): the
selected cell holds the red man and red is the current player. -/
theorem C10_selectionInvariant_witness :
    (selState.board 5 0).startsWith selState.currentPlayer = true ∧
    (selState.board 5 0 = Cell.piece Player.red false →
      Player.red = selState.currentPlayer) :=
  C10_selectionInvariant selState
    (Reachable.select initState 5 0 (Reachable.init blankState)) 5 0
    Player.red false rfl

/-- Counterexample to claim C9 as stated: on the freshly initialized
board the current player is red, the cell (2, 1) holds a black man,
and `selectPiece(2, 1)` therefore fails instead of succeeding. -/
theorem C9_counterexample :
    initState.currentPlayer = Player.red ∧
    initState.board 2 1 = Cell.piece Player.black false ∧
    (selectPiece initState 2 1).1 = false := by
  decide

/-- Claim C9 (amended): on a freshly initialized board the first move
belongs to red, so the scenario runs with the red man at (5, 0):
selecting it succeeds, the subsequent `movePiece(4, 1)` succeeds, the
cell (5, 0) becomes empty, the cell (4, 1) holds the red man, and the
current player switches to black. -/
theorem C9_scenario :
    (selectPiece initState 5 0).1 = true ∧
    movePiece selState 4 1 = some (true, movedState) ∧
    movedState.board 5 0 = Cell.empty ∧
    movedState.board 4 1 = Cell.piece Player.red false ∧
    movedState.currentPlayer = Player.black :=
  ⟨by decide, rfl, by decide, by decide, by decide⟩

end Checkers
